import Mathlib

/-!
Formal model of the data-transfer client in main.go.

Conventions of the embedding:
- Bytes are Nat values; byte buffers are List Nat.
- Wall-clock instants and durations are Int nanoseconds.
- Go int arithmetic is modeled with Int; Go integer division truncates
  toward zero, which Int.tdiv matches.
- Floating point status values (speed, percent) are modeled as
  numerator and denominator pairs, since the only property the claims
  need is whether a denominator is zero; the code divides them as
  float64, where a zero denominator yields NaN, never a trap.
- A read from the network is modeled by the data it returns; a reader
  wrapper is a state transformer on its own fields.
-/

/-- End of a stream: clean end of input, or a transport error. -/
inductive StreamEnd where
  | eof
  | ioError
deriving DecidableEq

/-- The response bytes of one command as the client will observe them:
the delivered bytes, then how the stream ends. -/
structure ServerStream where
  bytes : List Nat
  ending : StreamEnd
deriving DecidableEq

/-- State of the ProgressReader struct (main.go lines 18-24). The wrapped
reader r is threaded separately; the remaining fields are kept verbatim. -/
structure ProgressReader where
  totalSize : Int
  readBytes : Int
  lastReadTime : Int
  lastBytes : Int
deriving DecidableEq

/-- NewProgressReader (main.go lines 26-32): readBytes and lastBytes start
at the zero value, lastReadTime at the current instant. -/
def NewProgressReader (totalSize now : Int) : ProgressReader :=
  { totalSize := totalSize, readBytes := 0, lastReadTime := now, lastBytes := 0 }

/-- ProgressReader.Read (main.go lines 34-38): delegate to the wrapped
reader, add the returned count to readBytes, return the result unchanged.
The argument res is what the wrapped reader returned for this call:
the bytes placed in the buffer and the error value. -/
def ProgressReader.Read (pr : ProgressReader) (res : List Nat × Option String) :
    (List Nat × Option String) × ProgressReader :=
  (res, { pr with readBytes := pr.readBytes + (res.1.length : Int) })

/-- What one iteration of the StartMonitor goroutine prints (main.go
lines 43-60): the status line carries speed = diff / duration and
percent = readBytes / totalSize * 100, both computed as float64 and
modeled here by their numerator and denominator; completionPrinted
records whether this iteration also printed the final completion line
and stopped the ticker. -/
structure TickOutput where
  speedNum : Int
  speedDenNs : Int
  percentNum : Int
  percentDen : Int
  completionPrinted : Bool
deriving DecidableEq

/-- One iteration of the StartMonitor loop body (main.go lines 43-60):
compute duration and diff, print the status line with speed and percent,
set lastReadTime and lastBytes, then stop if readBytes has reached
totalSize. The percent division is computed on every iteration, before
the stop test. -/
def ProgressReader.monitorTick (pr : ProgressReader) (now : Int) :
    ProgressReader × TickOutput :=
  ({ totalSize := pr.totalSize, readBytes := pr.readBytes,
     lastReadTime := now, lastBytes := pr.readBytes },
   { speedNum := pr.readBytes - pr.lastBytes,
     speedDenNs := now - pr.lastReadTime,
     percentNum := pr.readBytes,
     percentDen := pr.totalSize,
     completionPrinted := decide (pr.totalSize ≤ pr.readBytes) })

/-- The StartMonitor goroutine run over a list of tick instants, for the
regime where the foreground transfer is over and readBytes no longer
changes between ticks. Returns the final state and whether the loop
retired (stopped the ticker and printed the completion line). The only
exit is the readBytes at or above totalSize test inside the body; no
external signal exists in the source. -/
def ProgressReader.monitorLoop : ProgressReader → List Int → ProgressReader × Bool
  | pr, [] => (pr, false)
  | pr, t :: ts =>
    if (ProgressReader.monitorTick pr t).2.completionPrinted = true then
      ((ProgressReader.monitorTick pr t).1, true)
    else
      ProgressReader.monitorLoop (ProgressReader.monitorTick pr t).1 ts

/-- Ticker period of StartMonitor (main.go line 41): 1 second, so the
first status output happens one full period after the monitor starts. -/
def startMonitorTickPeriodNs : Int := 1000000000

/-- State of the rateLimitedReader struct (main.go lines 65-70). lastRead
is none while still the Go zero time, some t once set. The byteCount
field of the struct is never used by the source and is omitted. -/
structure rateLimitedReader where
  limit : Int
  lastRead : Option Int
deriving DecidableEq

/-- Result of one rateLimitedReader.Read call: the returned count and
error, the length the buffer was truncated to before delegating, the
nanoseconds slept before returning, and the updated receiver state. -/
structure RLRead where
  n : Int
  err : Option String
  truncLen : Int
  sleepNs : Int
  state : rateLimitedReader
deriving DecidableEq

/-- rateLimitedReader.Read (main.go lines 76-104). u models the wrapped
reader at the level of counts: given the length of the buffer it is
handed, it returns the count read and the error. tEntry is the instant
of the lastRead initialization on the first call (line 82); tPostRead is
the instant right after the delegated read (lines 95-96). A non-positive
limit returns the wrapped reader result directly with no state change
and no sleep. -/
def rateLimitedReader.Read (rl : rateLimitedReader) (pLen : Int)
    (u : Int → Int × Option String) (tEntry tPostRead : Int) : RLRead :=
  if rl.limit ≤ 0 then
    { n := (u pLen).1, err := (u pLen).2, truncLen := pLen, sleepNs := 0, state := rl }
  else
    let last0 : Int := match rl.lastRead with
      | none => tEntry
      | some t => t
    let mb0 := Int.tdiv rl.limit 10
    let maxBytes := if mb0 < 1 then 1 else mb0
    let pLen2 := if pLen > maxBytes then maxBytes else pLen
    let res := u pLen2
    let timeElapsed := tPostRead - last0
    let expectedTime := Int.tdiv (res.1 * 1000000000) rl.limit
    { n := res.1, err := res.2, truncLen := pLen2,
      sleepNs := if timeElapsed < expectedTime then expectedTime - timeElapsed else 0,
      state := { limit := rl.limit, lastRead := some tPostRead } }

/-- io.Copy from a chain head that is a ProgressReader (main.go line 157),
with the payload delivered as a list of chunks: each read hands one chunk
through ProgressReader.Read and writes it to the destination; when the
chunks are exhausted the next read reports the stream ending, which
io.Copy turns into no error for a clean end of input and into the read
error otherwise. Returns the bytes written in order, the io.Copy error,
and the final reader state. -/
def copyLoop : ProgressReader → List (List Nat) → StreamEnd →
    List Nat × Option String × ProgressReader
  | pr, [], ending =>
    ([], (match ending with | .eof => none | .ioError => some "read error"), pr)
  | pr, c :: cs, ending =>
    let step := ProgressReader.Read pr (c, none)
    let rest := copyLoop step.2 cs ending
    (step.1.1 ++ rest.1, rest.2.1, rest.2.2)

/-- bufio ScanLines helper dropCR: strip one trailing carriage return. -/
def dropTrailingCR (l : List Nat) : List Nat :=
  if l.getLast? = some 13 then l.dropLast else l

/-- The token sequence a bufio.Scanner with the default ScanLines split
produces from the delivered bytes: split at each newline, and a final
fragment with no newline is still produced as a last token when the
stream ends. -/
def scanLines (l : List Nat) : List (List Nat) :=
  if l = [] then []
  else if l.getLast? = some 10 then ((l.splitOn 10).dropLast).map dropTrailingCR
  else (l.splitOn 10).map dropTrailingCR

/-- bufio ReadString with delimiter newline applied to the stream (main.go
line 142): if a newline is among the delivered bytes, the line up to and
including it is returned with no error and the rest of the stream remains;
otherwise all bytes are consumed and the call fails with the stream
ending (end of input or transport error). -/
def splitAtNewline : List Nat → Option (List Nat × List Nat)
  | [] => none
  | c :: cs =>
    if c = 10 then some ([10], cs)
    else match splitAtNewline cs with
      | some (l, r) => some (c :: l, r)
      | none => none

/-- See splitAtNewline: the ReadString call of main.go line 142. -/
def readSizeLine (s : ServerStream) : Except StreamEnd (List Nat × ServerStream) :=
  match splitAtNewline s.bytes with
  | some (line, rest) => .ok (line, { bytes := rest, ending := s.ending })
  | none => .error s.ending

/-- Space test used while skipping leading blanks in fmt.Sscanf number
scanning; the size lines of the claims carry no leading blanks, so only
the plain blank and the tab are modeled. -/
def isSpace (c : Nat) : Bool := c == 32 || c == 9

/-- Decimal digit test. -/
def isDigit (c : Nat) : Bool := 48 ≤ c && c ≤ 57

/-- Value of a digit run. -/
def digitsToNat (l : List Nat) : Nat :=
  l.foldl (fun acc c => acc * 10 + (c - 48)) 0

/-- fmt.Sscanf with a decimal verb (main.go line 147): skip leading
blanks, accept an optional sign, then require at least one decimal
digit; further bytes are ignored. none models the scan failing, in which
case the Go code leaves totalSize at its zero value because the error
result of Sscanf is discarded. -/
def sscanfD (l : List Nat) : Option Int :=
  let l1 := l.dropWhile isSpace
  match l1 with
  | 45 :: rest =>
    if rest.takeWhile isDigit = [] then none
    else some (-(digitsToNat (rest.takeWhile isDigit) : Int))
  | 43 :: rest =>
    if rest.takeWhile isDigit = [] then none
    else some ((digitsToNat (rest.takeWhile isDigit) : Int))
  | _ =>
    if l1.takeWhile isDigit = [] then none
    else some ((digitsToNat (l1.takeWhile isDigit) : Int))

/-- Observable effects of the get branch of main (main.go lines 132-158),
in program order. createDest is the os.Create call, which truncates any
existing file of that name; readResponse is the first read of response
bytes (the size line); fatalSizeLine is the log.Fatalf of line 144;
installLimiter is the NewRateLimitedReader wrapping; signalMonitorStop
would be an explicit retirement signal to the monitor goroutine — the
source contains no statement that could emit it. -/
inductive Event where
  | createDest (name : String)
  | readResponse
  | fatalSizeLine
  | installLimiter
  | startMonitor (total : Int)
  | writeDest (bs : List Nat)
  | printCompletion (name : String)
  | signalMonitorStop
deriving DecidableEq

/-- Outcome of the get branch: the effect trace, the process exit code,
the destination file content (some once os.Create ran; it stays in place
on every path), the final readBytes of the progress reader, and the
totalSize value the download proceeded with (none when the size line
read failed before it was assigned). -/
structure GetResult where
  trace : List Event
  exitCode : Nat
  destFile : Option (List Nat)
  finalReadBytes : Int
  declaredTotal : Option Int
deriving DecidableEq

/-- The get branch of main (main.go lines 132-158): create the
destination, read the size line (log.Fatalf on error, exiting with
status 1 and leaving the empty file), scan it with Sscanf discarding the
error, wrap the stream in the rate limiter when the limit flag is
positive, start the monitor, io.Copy everything to the destination
discarding the copy result, and print the completion message
unconditionally. The payload is handed to the copy as one chunk; the
rate limiter only shortens individual reads and never alters the byte
sequence, so the chunking does not change the bytes written. -/
def getCommand (filename : String) (limit : Int) (s : ServerStream) (t0 : Int) :
    GetResult :=
  match readSizeLine s with
  | .error _ =>
    { trace := [Event.createDest filename, Event.readResponse, Event.fatalSizeLine],
      exitCode := 1, destFile := some [], finalReadBytes := 0, declaredTotal := none }
  | .ok (line, rest) =>
    let totalSize : Int := (sscanfD line).getD 0
    let limiterEvents := if 0 < limit then [Event.installLimiter] else []
    let pr := NewProgressReader totalSize t0
    let chunks : List (List Nat) := if rest.bytes.isEmpty then [] else [rest.bytes]
    let copied := copyLoop pr chunks rest.ending
    { trace := Event.createDest filename :: Event.readResponse ::
        (limiterEvents ++ [Event.startMonitor totalSize, Event.writeDest copied.1,
          Event.printCompletion filename]),
      exitCode := 0, destFile := some copied.1,
      finalReadBytes := copied.2.2.readBytes, declaredTotal := some totalSize }

/-- One line of process output in the ls branch: a relayed entry, or a
surfaced error report. The source contains no statement that could
produce the second form — the scan loop of main.go lines 160-164 is
followed by nothing, and the scanner error is never inspected. -/
inductive OutLine where
  | entry (bs : List Nat)
  | errorReport
deriving DecidableEq

/-- Outcome of the ls branch. -/
structure LsResult where
  output : List OutLine
  exitCode : Nat
deriving DecidableEq

/-- The ls branch of main (main.go lines 159-164): print every token the
scanner produces, in order, then fall off the end of main with exit
status 0. The stream ending is never inspected. -/
def lsCommand (s : ServerStream) : LsResult :=
  { output := (scanLines s.bytes).map OutLine.entry, exitCode := 0 }

/-! ## Helper lemmas -/

/-- Arithmetic form of the buffer cap: the Go if statement equals min. -/
theorem ite_gt_eq_min (x m : Int) : (if x > m then m else x) = min x m := by
  split_ifs <;> omega

/-- Arithmetic form of the slice floor: the Go if statement equals max. -/
theorem ite_lt_one_eq_max (d : Int) : (if d < 1 then 1 else d) = max 1 d := by
  split_ifs <;> omega

/-- Arithmetic form of the sleep compensation: the Go if statement equals
the positive part of the difference. -/
theorem ite_lt_sub_eq_max (a b : Int) : (if a < b then b - a else 0) = max 0 (b - a) := by
  split_ifs <;> omega

/-- A monitor iteration never changes readBytes. -/
theorem monitorTick_readBytes (pr : ProgressReader) (t : Int) :
    (ProgressReader.monitorTick pr t).1.readBytes = pr.readBytes := rfl

/-- A monitor iteration never changes totalSize. -/
theorem monitorTick_totalSize (pr : ProgressReader) (t : Int) :
    (ProgressReader.monitorTick pr t).1.totalSize = pr.totalSize := rfl

/-- While readBytes stays below totalSize, the monitor loop never
retires, however many ticks occur: its only exit test fails forever. -/
theorem monitorLoop_no_retire (ts : List Int) :
    ∀ pr : ProgressReader, pr.readBytes < pr.totalSize →
      (ProgressReader.monitorLoop pr ts).2 = false := by
  induction ts with
  | nil => intro pr _; rfl
  | cons t ts ih =>
    intro pr h
    have hc : (ProgressReader.monitorTick pr t).2.completionPrinted = false := by
      show decide (pr.totalSize ≤ pr.readBytes) = false
      simp only [decide_eq_false_iff_not]
      omega
    simp only [ProgressReader.monitorLoop, hc, Bool.false_eq_true, if_false]
    exact ih _ (by
      rw [monitorTick_readBytes, monitorTick_totalSize]
      exact h)

/-! ## Claim theorems -/

/-- Claim C4: for every Read call on the throttled source with a
positive configured limit, the requested buffer is capped at
max 1 (limit / 10) bytes before delegating, the call returns exactly
what the delegated read returns, and it sleeps for n seconds divided by
the limit minus the time elapsed since the previous read whenever that
difference is positive; for every non-positive limit the call is a pure
pass-through of the wrapped reader with no truncation, no sleep and no
state change. -/
theorem claim_C4_rate_limiter (rl : rateLimitedReader) (pLen : Int)
    (u : Int → Int × Option String) (tEntry tPostRead tPrev : Int) :
    (0 < rl.limit → rl.lastRead = some tPrev →
      (rl.Read pLen u tEntry tPostRead).truncLen
          = min pLen (max 1 (Int.tdiv rl.limit 10)) ∧
      (rl.Read pLen u tEntry tPostRead).n
          = (u (rl.Read pLen u tEntry tPostRead).truncLen).1 ∧
      (rl.Read pLen u tEntry tPostRead).err
          = (u (rl.Read pLen u tEntry tPostRead).truncLen).2 ∧
      (rl.Read pLen u tEntry tPostRead).sleepNs
          = max 0 (Int.tdiv ((rl.Read pLen u tEntry tPostRead).n * 1000000000) rl.limit
              - (tPostRead - tPrev))) ∧
    (rl.limit ≤ 0 →
      rl.Read pLen u tEntry tPostRead
        = { n := (u pLen).1, err := (u pLen).2, truncLen := pLen,
            sleepNs := 0, state := rl }) := by
  constructor
  · intro hpos hlast
    simp only [rateLimitedReader.Read, if_neg (by omega : ¬ rl.limit ≤ 0), hlast]
    refine ⟨?_, trivial, trivial, ?_⟩
    · rw [ite_lt_one_eq_max, ite_gt_eq_min]
    · rw [ite_lt_sub_eq_max]
  · intro hnp
    simp only [rateLimitedReader.Read, if_pos hnp]

/-- Claim C7: every Read call on the progress tracker returns exactly
the bytes and error of the wrapped reader, adds exactly the returned
count to readBytes so the counter never decreases and no other field
moves, and the monitor iteration never changes the counter: it is
mutated only by the read path. -/
theorem claim_C7_tracker_passthrough :
    (∀ (pr : ProgressReader) (res : List Nat × Option String),
      (pr.Read res).1 = res ∧
      (pr.Read res).2.readBytes = pr.readBytes + (res.1.length : Int) ∧
      pr.readBytes ≤ (pr.Read res).2.readBytes ∧
      (pr.Read res).2.totalSize = pr.totalSize ∧
      (pr.Read res).2.lastReadTime = pr.lastReadTime ∧
      (pr.Read res).2.lastBytes = pr.lastBytes) ∧
    (∀ (pr : ProgressReader) (t : Int),
      (ProgressReader.monitorTick pr t).1.readBytes = pr.readBytes ∧
      (ProgressReader.monitorTick pr t).1.totalSize = pr.totalSize) := by
  refine ⟨fun pr res => ⟨rfl, rfl, ?_, rfl, rfl, rfl⟩, fun pr t => ⟨rfl, rfl⟩⟩
  show pr.readBytes ≤ pr.readBytes + (res.1.length : Int)
  omega

/-- Witness for claim C4 at concrete inputs: limit 100 with the previous
read at instant 0 and the current call finishing at instant 1000 asks
for 50 bytes and is capped at 10; limit 0 is the pass-through case. -/
theorem claim_C4_rate_limiter_witness :
    ((0 : Int) < 100 ∧
      (rateLimitedReader.Read ⟨100, some 0⟩ 50 (fun l => (l, none)) 0 1000).truncLen
          = min 50 (max 1 (Int.tdiv 100 10)) ∧
      (rateLimitedReader.Read ⟨100, some 0⟩ 50 (fun l => (l, none)) 0 1000).sleepNs
          = max 0 (Int.tdiv
              ((rateLimitedReader.Read ⟨100, some 0⟩ 50 (fun l => (l, none)) 0 1000).n
                * 1000000000) 100 - (1000 - 0))) ∧
    ((0 : Int) ≤ 0 ∧
      rateLimitedReader.Read ⟨0, none⟩ 50 (fun l => (l, none)) 0 1000
        = { n := 50, err := none, truncLen := 50, sleepNs := 0,
            state := ⟨0, none⟩ }) :=
  ⟨⟨by decide,
    ((claim_C4_rate_limiter ⟨100, some 0⟩ 50 (fun l => (l, none)) 0 1000 0).1
      (by decide) rfl).1,
    ((claim_C4_rate_limiter ⟨100, some 0⟩ 50 (fun l => (l, none)) 0 1000 0).1
      (by decide) rfl).2.2.2⟩,
   ⟨by decide,
    (claim_C4_rate_limiter ⟨0, none⟩ 50 (fun l => (l, none)) 0 1000 0).2 (by decide)⟩⟩

/-- Claim C1 requires a distinct truncation error, a non-zero exit and
no completion report when the stream ends before the declared count.
This evaluation shows the source instead: with 100 bytes declared and
only 90 delivered before a clean stream end, the client exits with
status 0, prints the completion message, and emits no error event; the
partial 90-byte destination file is left in place. -/
theorem claim_C1_truncation_eval :
    getCommand "report.bin" 0
        { bytes := [49, 48, 48, 10] ++ List.replicate 90 120, ending := .eof } 0
      = { trace := [Event.createDest "report.bin", Event.readResponse,
            Event.startMonitor 100, Event.writeDest (List.replicate 90 120),
            Event.printCompletion "report.bin"],
          exitCode := 0, destFile := some (List.replicate 90 120),
          finalReadBytes := 90, declaredTotal := some 100 } := by
  decide

/-- Claim C2 requires that the client never writes more than the
declared byte count. This evaluation shows the source instead: with 5
bytes declared and 10 delivered, all 10 bytes are written to the
destination, because the copy has no limit tied to the declared size. -/
theorem claim_C2_no_cap_eval :
    (getCommand "big.bin" 0
        { bytes := [53, 10] ++ List.replicate 10 66, ending := .eof } 0).declaredTotal
      = some 5 ∧
    (getCommand "big.bin" 0
        { bytes := [53, 10] ++ List.replicate 10 66, ending := .eof } 0).destFile
      = some (List.replicate 10 66) ∧
    (getCommand "big.bin" 0
        { bytes := [53, 10] ++ List.replicate 10 66, ending := .eof } 0).exitCode
      = 0 := by
  decide

/-- Claim C3 requires a fatal ProtocolError when the size line is not
parseable as a non-negative decimal integer. This evaluation shows the
source instead: the scan of a non-numeric line fails and is discarded,
a negative size line is accepted, and with the non-numeric line the
download proceeds with a declared total of 0, exit status 0 and the
completion message printed. -/
theorem claim_C3_parse_ignored_eval :
    sscanfD [97, 98, 99, 10] = none ∧
    sscanfD [45, 53, 10] = some (-5) ∧
    getCommand "x.bin" 0 { bytes := [97, 98, 99, 10, 1, 2, 3], ending := .eof } 0
      = { trace := [Event.createDest "x.bin", Event.readResponse,
            Event.startMonitor 0, Event.writeDest [1, 2, 3],
            Event.printCompletion "x.bin"],
          exitCode := 0, destFile := some [1, 2, 3],
          finalReadBytes := 3, declaredTotal := some 0 } := by
  decide

/-- Claim C5 requires that with a declared total of 0 the reporter emits
the completion line immediately and retires without ever computing a
percentage that divides by zero. This evaluation shows the source
instead: the first monitor iteration happens one full ticker period
after the start, and it computes the percent with denominator 0 before
printing the completion line on that same iteration; the copy loop half
of the claim does hold, with a 0-byte destination and exit status 0. -/
theorem claim_C5_zero_total_eval :
    startMonitorTickPeriodNs = 1000000000 ∧
    (ProgressReader.monitorTick (NewProgressReader 0 0)
        startMonitorTickPeriodNs).2.percentDen = 0 ∧
    (ProgressReader.monitorTick (NewProgressReader 0 0)
        startMonitorTickPeriodNs).2.completionPrinted = true ∧
    (getCommand "empty.bin" 0 { bytes := [48, 10], ending := .eof } 0).destFile
      = some [] ∧
    (getCommand "empty.bin" 0 { bytes := [48, 10], ending := .eof } 0).exitCode
      = 0 := by
  decide

/-- Claim C6 requires the foreground pipeline to signal reporter
retirement on every exit path. This shows the source instead: on a
truncated transfer of 40 of 100 declared bytes, the effect trace of the
get branch contains no retirement signal at all, and the monitor loop,
whose only exit test is readBytes at or above totalSize, never retires
over any tick sequence while the frozen count 40 stays below 100 —
the background task outlives the transfer. -/
theorem claim_C6_no_stop_signal :
    (getCommand "report.bin" 0
        { bytes := [49, 48, 48, 10] ++ List.replicate 40 120, ending := .eof } 0).trace
      = [Event.createDest "report.bin", Event.readResponse,
         Event.startMonitor 100, Event.writeDest (List.replicate 40 120),
         Event.printCompletion "report.bin"] ∧
    (getCommand "report.bin" 0
        { bytes := [49, 48, 48, 10] ++ List.replicate 40 120, ending := .eof } 0).finalReadBytes
      = 40 ∧
    ∀ (ts : List Int) (lt lb : Int),
      (ProgressReader.monitorLoop
        { totalSize := 100, readBytes := 40, lastReadTime := lt, lastBytes := lb } ts).2
      = false := by
  refine ⟨by decide, by decide, fun ts lt lb => monitorLoop_no_retire ts _ ?_⟩
  show (40 : Int) < 100
  decide

/-- Claim C8 requires a stream error in listing mode to be surfaced as a
fatal error with a non-zero exit. This shows the source instead: the ls
branch relays every line in arrival order — that half of the claim
holds — but with a transport error ending the output contains only the
relayed entries, no error report, and the exit status is 0 for every
stream whatsoever, because the scanner error is never inspected. -/
theorem claim_C8_ls_error_ignored :
    lsCommand
        ⟨[97, 46, 116, 120, 116, 10, 98, 46, 116, 120, 116, 10], .ioError⟩
      = { output := [OutLine.entry [97, 46, 116, 120, 116],
            OutLine.entry [98, 46, 116, 120, 116]], exitCode := 0 } ∧
    (∀ s : ServerStream, (lsCommand s).exitCode = 0 ∧
      (lsCommand s).output = (scanLines s.bytes).map OutLine.entry) :=
  ⟨by decide, fun _ => ⟨rfl, rfl⟩⟩

/-- Claim C10: on every get invocation the destination file is created,
empty, before any response byte is read — the creation is the first
effect of the branch, ahead of the size line read — and when the size
line read fails the branch exits with status 1 leaving the newly
created empty destination file in place. -/
theorem claim_C10_create_before_read (filename : String) (limit t0 : Int)
    (s : ServerStream) :
    (getCommand filename limit s t0).trace.take 2
        = [Event.createDest filename, Event.readResponse] ∧
    (∀ e : StreamEnd, readSizeLine s = Except.error e →
      (getCommand filename limit s t0).destFile = some [] ∧
      (getCommand filename limit s t0).exitCode = 1) := by
  cases h : readSizeLine s with
  | error e =>
    refine ⟨by simp [getCommand, h], fun e2 _ => by simp [getCommand, h]⟩
  | ok v =>
    refine ⟨?_, fun e2 he => ?_⟩
    · obtain ⟨line, rest⟩ := v
      simp [getCommand, h]
    · simp at he

/-- Witness for claim C10 at a concrete input: a stream that ends before
any newline, so the size line read fails. -/
theorem claim_C10_create_before_read_witness :
    (getCommand "a.bin" 0 { bytes := [120], ending := .eof } 0).trace.take 2
        = [Event.createDest "a.bin", Event.readResponse] ∧
    ((getCommand "a.bin" 0 { bytes := [120], ending := .eof } 0).destFile = some [] ∧
     (getCommand "a.bin" 0 { bytes := [120], ending := .eof } 0).exitCode = 1) :=
  ⟨(claim_C10_create_before_read "a.bin" 0 0 { bytes := [120], ending := .eof }).1,
   (claim_C10_create_before_read "a.bin" 0 0 { bytes := [120], ending := .eof }).2
     StreamEnd.eof rfl⟩
